import Mathlib

/-!
Verification of the gcsfuse buffered-read download task
(`bufferedread.DownloadTask.Execute`) and the stale temporary-object
garbage collector (`gcsx.garbageCollectOnce` / `gcsx.garbageCollect`)
against their natural-language specification.

The Go code is shallowly embedded: the bucket, the ranged reader and the
execution context are abstracted as explicit inputs (an `OpenOutcome`
describing what `bucket.NewReaderWithReadHandle` and the subsequent
`io.CopyN` would do, and a boolean for `ctx.Err() == context.Canceled`),
and every side effect of an execution (block notifications, metric
emissions, read-handle updater invocations, bytes written) is collected in
an explicit result record.
-/

/-- Model of Go error values as they occur in this code: `gcs.NotFoundError`,
`context.Canceled`, any other error, `gcsfuse_errors.FileClobberedError`
(which records the object name and wraps a cause), and `fmt.Errorf`-style
wrapping with a message (`%w`). -/
inductive GoError
  | notFound (msg : String)
  | canceled
  | other (msg : String)
  | fileClobbered (objectName : String) (inner : GoError)
  | wrapped (msg : String) (inner : GoError)
deriving DecidableEq

/-- `errors.As(err, &notFoundError)` for `*gcs.NotFoundError`: true when some
error in the wrap chain is a not-found error. -/
def GoError.containsNotFound : GoError → Bool
  | .notFound _ => true
  | .wrapped _ e => e.containsNotFound
  | .fileClobbered _ e => e.containsNotFound
  | _ => false

/-- `errors.Is(err, context.Canceled)`: true when some error in the wrap chain
is `context.Canceled`. -/
def GoError.isCanceled : GoError → Bool
  | .canceled => true
  | .wrapped _ e => e.isCanceled
  | .fileClobbered _ e => e.isCanceled
  | _ => false

/-- `errors.As(err, &fileClobberedError)`: true when some error in the wrap
chain is a `gcsfuse_errors.FileClobberedError`. -/
def GoError.containsFileClobbered : GoError → Bool
  | .fileClobbered _ _ => true
  | .wrapped _ e => e.containsFileClobbered
  | _ => false

/-- `gcs.MinObject`: the object metadata used by the download task
(`Name`, `Generation`, `Size`, content encoding) and by the garbage
collector (`Name`, `Updated`).  `updated` is a timestamp in nanoseconds. -/
structure MinObject where
  name : String
  generation : Int
  size : Nat
  contentEncodingGzip : Bool
  updated : Int
deriving DecidableEq

/-- The two terminal block states notified by `DownloadTask.Execute`:
`block.BlockStateDownloaded` and `block.BlockStateDownloadFailed`. -/
inductive BlockState
  | downloaded
  | downloadFailed
deriving DecidableEq

/-- `block.BlockStatus`: terminal state plus the optional causing error. -/
structure BlockStatus where
  state : BlockState
  err : Option GoError
deriving DecidableEq

/-- Behaviour of the reader returned by a successful
`bucket.NewReaderWithReadHandle` call: what `io.CopyN(dt.block, newReader, n)`
does (`none` = copies all `n` requested bytes; `some (k, e)` = fails with
error `e` after writing `k` bytes), and the updated read handle the reader
exposes via `ReadHandle()`. -/
structure ReaderEnv where
  copyResult : Option (Nat × GoError)
  readHandle : List Nat
deriving DecidableEq

/-- Behaviour of `bucket.NewReaderWithReadHandle` for one execution: either it
fails with an error, or it returns a reader. -/
inductive OpenOutcome
  | failure (e : GoError)
  | success (r : ReaderEnv)
deriving DecidableEq

/-- The error the environment delivers to the task, if any: the reader-open
error, or the data-copy error of an opened reader. -/
def OpenOutcome.errOf : OpenOutcome → Option GoError
  | .failure e => some e
  | .success r => r.copyResult.map Prod.snd

/-- `bufferedread.DownloadTask`: the target object, the block geometry
(`block.AbsStartOff()`, `block.Cap()`), whether `ctx.Err() == context.Canceled`
holds when the deferred handler runs, the prior read handle, and whether a
`readHandleUpdater` callback was supplied (non-nil). -/
structure DownloadTask where
  object : MinObject
  blockAbsStartOff : Nat
  blockCap : Nat
  ctxCanceled : Bool
  readHandle : List Nat
  hasReadHandleUpdater : Bool
deriving DecidableEq

/-- All observable effects of one `DownloadTask.Execute()` call: the
`NotifyReady` calls on the block, the bytes written into the block, the
latency observations (`BufferedReadDownloadBlockLatency`) and counter
increments (`BufferedReadScheduledBlockCount`) with their outcome labels,
the `readHandleUpdater` invocations, and the byte range of the issued
`gcs.ReadObjectRequest`. -/
structure ExecResult where
  notifications : List BlockStatus
  bytesWritten : Nat
  latencyLabels : List String
  counterIncrements : List (Nat × String)
  updaterCalls : List (List Nat)
  requestedRange : Nat × Nat
deriving DecidableEq

/-- The deferred function at the top of `DownloadTask.Execute`: picks the
outcome label (`successful` / `cancelled` / `failed`), notifies the block
exactly once with the terminal status, and records one latency observation
and one counter increment, both tagged with that label. -/
def DownloadTask.finish (dt : DownloadTask) (err : Option GoError)
    (bytes : Nat) (updCalls : List (List Nat)) (range : Nat × Nat) :
    ExecResult :=
  match err with
  | none =>
    { notifications := [⟨BlockState.downloaded, none⟩]
      bytesWritten := bytes
      latencyLabels := ["successful"]
      counterIncrements := [(1, "successful")]
      updaterCalls := updCalls
      requestedRange := range }
  | some e =>
    let status := if e.isCanceled && dt.ctxCanceled then "cancelled" else "failed"
    { notifications := [⟨BlockState.downloadFailed, some e⟩]
      bytesWritten := bytes
      latencyLabels := [status]
      counterIncrements := [(1, status)]
      updaterCalls := updCalls
      requestedRange := range }

/-- `DownloadTask.Execute`: computes the byte range
`[start, min(start+cap, size))`, opens a ranged reader, copies the range into
the block, classifies open-time not-found errors as clobbered-file errors,
wraps other errors, optionally reports the updated read handle, and always
runs the deferred notification/metrics handler. -/
def DownloadTask.Execute (dt : DownloadTask) (env : OpenOutcome) : ExecResult :=
  let start := dt.blockAbsStartOff
  let endPos :=
    if start + dt.blockCap > dt.object.size then dt.object.size
    else start + dt.blockCap
  match env with
  | .failure e =>
    if e.containsNotFound then
      dt.finish (some (GoError.fileClobbered dt.object.name e)) 0 [] (start, endPos)
    else
      dt.finish (some (GoError.wrapped "DownloadTask.Execute: while reader-creations" e))
        0 [] (start, endPos)
  | .success r =>
    match r.copyResult with
    | some (k, e) =>
      dt.finish (some (GoError.wrapped "DownloadTask.Execute: while data-copy" e))
        k [] (start, endPos)
    | none =>
      dt.finish none (endPos - start)
        (if dt.hasReadHandleUpdater then [r.readHandle] else [])
        (start, endPos)

/-- C1: for every download task whose execution succeeds, the bytes copied
into the block equal `min(start+capacity, objectSize) - start`, the requested
range is `[start, min(start+capacity, objectSize))`, and the block is
notified with terminal state `Downloaded`. -/
theorem C1_successful_download (dt : DownloadTask) (r : ReaderEnv)
    (h : r.copyResult = none) :
    (dt.Execute (OpenOutcome.success r)).bytesWritten
      = min (dt.blockAbsStartOff + dt.blockCap) dt.object.size - dt.blockAbsStartOff
    ∧ (dt.Execute (OpenOutcome.success r)).requestedRange
      = (dt.blockAbsStartOff, min (dt.blockAbsStartOff + dt.blockCap) dt.object.size)
    ∧ (dt.Execute (OpenOutcome.success r)).notifications
      = [⟨BlockState.downloaded, none⟩] := by
  have hmin : (if dt.blockAbsStartOff + dt.blockCap > dt.object.size
      then dt.object.size else dt.blockAbsStartOff + dt.blockCap)
      = min (dt.blockAbsStartOff + dt.blockCap) dt.object.size := by
    split <;> omega
  simp [DownloadTask.Execute, h, DownloadTask.finish, hmin]

/-- C1 witness: object of size 10,000 bytes, block capacity 4,096, block
index 2 (start offset 8,192): the requested range is `[8192, 10000)` and a
successful task writes exactly 1,808 bytes and ends `Downloaded`. -/
theorem C1_witness :
    (DownloadTask.Execute
        ⟨⟨"obj", 1, 10000, false, 0⟩, 8192, 4096, false, [], false⟩
        (OpenOutcome.success ⟨none, []⟩)).bytesWritten = 1808
    ∧ (DownloadTask.Execute
        ⟨⟨"obj", 1, 10000, false, 0⟩, 8192, 4096, false, [], false⟩
        (OpenOutcome.success ⟨none, []⟩)).requestedRange = (8192, 10000)
    ∧ (DownloadTask.Execute
        ⟨⟨"obj", 1, 10000, false, 0⟩, 8192, 4096, false, [], false⟩
        (OpenOutcome.success ⟨none, []⟩)).notifications
      = [⟨BlockState.downloaded, none⟩] := by
  have h := C1_successful_download
    ⟨⟨"obj", 1, 10000, false, 0⟩, 8192, 4096, false, [], false⟩ ⟨none, []⟩ rfl
  exact ⟨h.1.trans (by decide), h.2.1.trans (by decide), h.2.2⟩

/-- C3: for every download task cancelled via its context before completion
(the context reports `context.Canceled` and the error delivered by the
open or copy phase is a cancellation error), the block is notified with the
failed terminal state and both metric emissions carry the label `cancelled`,
never `failed`. -/
theorem C3_cancelled_label (dt : DownloadTask) (env : OpenOutcome)
    (hc : dt.ctxCanceled = true)
    (herr : env.errOf ≠ none)
    (hcanc : ∀ e, env.errOf = some e →
      e.isCanceled = true ∧ e.containsNotFound = false) :
    (dt.Execute env).latencyLabels = ["cancelled"]
    ∧ (dt.Execute env).counterIncrements = [(1, "cancelled")]
    ∧ (dt.Execute env).latencyLabels ≠ ["failed"]
    ∧ ∃ e, (dt.Execute env).notifications
        = [⟨BlockState.downloadFailed, some e⟩] := by
  match env with
  | OpenOutcome.failure e =>
    obtain ⟨hcan, hnf⟩ := hcanc e rfl
    simp [DownloadTask.Execute, DownloadTask.finish, OpenOutcome.errOf,
      GoError.isCanceled, hc, hcan, hnf]
  | OpenOutcome.success r =>
    match hr : r.copyResult with
    | none => simp [OpenOutcome.errOf, hr] at herr
    | some (k, e) =>
      obtain ⟨hcan, _⟩ := hcanc e (by simp [OpenOutcome.errOf, hr])
      simp [DownloadTask.Execute, DownloadTask.finish, hr,
        GoError.isCanceled, hc, hcan]

/-- C3 witness: a task whose context is cancelled and whose reader open fails
with `context.Canceled` is labelled `cancelled` and notified as failed. -/
theorem C3_witness :
    (DownloadTask.Execute
        ⟨⟨"obj", 1, 100, false, 0⟩, 0, 10, true, [], false⟩
        (OpenOutcome.failure GoError.canceled)).latencyLabels = ["cancelled"]
    ∧ (DownloadTask.Execute
        ⟨⟨"obj", 1, 100, false, 0⟩, 0, 10, true, [], false⟩
        (OpenOutcome.failure GoError.canceled)).counterIncrements
      = [(1, "cancelled")]
    ∧ (DownloadTask.Execute
        ⟨⟨"obj", 1, 100, false, 0⟩, 0, 10, true, [], false⟩
        (OpenOutcome.failure GoError.canceled)).latencyLabels ≠ ["failed"]
    ∧ ∃ e, (DownloadTask.Execute
        ⟨⟨"obj", 1, 100, false, 0⟩, 0, 10, true, [], false⟩
        (OpenOutcome.failure GoError.canceled)).notifications
      = [⟨BlockState.downloadFailed, some e⟩] :=
  C3_cancelled_label ⟨⟨"obj", 1, 100, false, 0⟩, 0, 10, true, [], false⟩
    (OpenOutcome.failure GoError.canceled) rfl (by decide)
    (fun e he => by
      simp only [OpenOutcome.errOf, Option.some_inj] at he
      subst he; exact ⟨rfl, rfl⟩)

/-- C4: for every download task whose reader open fails with an error whose
chain contains "not found", the block is notified with `DownloadFailed`
carrying a clobbered-file error (tagged with the object name), an error kind
distinguishable from all other failure causes. -/
theorem C4_not_found_clobbered (dt : DownloadTask) (e : GoError)
    (h : e.containsNotFound = true) :
    (dt.Execute (OpenOutcome.failure e)).notifications
      = [⟨BlockState.downloadFailed,
          some (GoError.fileClobbered dt.object.name e)⟩]
    ∧ (GoError.fileClobbered dt.object.name e).containsFileClobbered = true := by
  simp [DownloadTask.Execute, DownloadTask.finish, h, GoError.containsFileClobbered]

/-- C4 witness: a task whose reader open fails with `gcs.NotFoundError` is
notified `DownloadFailed` with a clobbered-file error for the object. -/
theorem C4_witness :
    (DownloadTask.Execute
        ⟨⟨"obj", 1, 100, false, 0⟩, 0, 10, false, [], false⟩
        (OpenOutcome.failure (GoError.notFound "gone"))).notifications
      = [⟨BlockState.downloadFailed,
          some (GoError.fileClobbered "obj" (GoError.notFound "gone"))⟩]
    ∧ (GoError.fileClobbered "obj" (GoError.notFound "gone")).containsFileClobbered
      = true :=
  C4_not_found_clobbered ⟨⟨"obj", 1, 100, false, 0⟩, 0, 10, false, [], false⟩
    (GoError.notFound "gone") rfl

/-- C7: every execution, on every outcome path, produces exactly one terminal
notification to its block, exactly one latency observation, and exactly one
scheduled-block counter increment (of one), with the latency observation and
the counter increment carrying the same outcome label. -/
theorem C7_exactly_one_of_each (dt : DownloadTask) (env : OpenOutcome) :
    (dt.Execute env).notifications.length = 1
    ∧ (dt.Execute env).latencyLabels.length = 1
    ∧ (dt.Execute env).counterIncrements.length = 1
    ∧ (dt.Execute env).counterIncrements
      = (dt.Execute env).latencyLabels.map (fun s => (1, s)) := by
  match env with
  | OpenOutcome.failure e =>
    by_cases h : e.containsNotFound = true <;>
      simp [DownloadTask.Execute, DownloadTask.finish, h]
  | OpenOutcome.success r =>
    match hr : r.copyResult with
    | none => simp [DownloadTask.Execute, DownloadTask.finish, hr]
    | some (k, e) => simp [DownloadTask.Execute, DownloadTask.finish, hr]

/-- C8: the read-handle updater is invoked exactly when the task holds a
non-nil callback and the download fully succeeded, in which case it is called
once with the reader's updated handle; on every failure path it is never
invoked. -/
theorem C8_updater_iff_success (dt : DownloadTask) (env : OpenOutcome) :
    (dt.Execute env).updaterCalls
      = match env with
        | OpenOutcome.failure _ => []
        | OpenOutcome.success r =>
          if dt.hasReadHandleUpdater = true ∧ r.copyResult = none
          then [r.readHandle] else [] := by
  match env with
  | OpenOutcome.failure e =>
    by_cases h : e.containsNotFound = true <;>
      simp [DownloadTask.Execute, DownloadTask.finish, h]
  | OpenOutcome.success r =>
    match hr : r.copyResult with
    | none =>
      by_cases hu : dt.hasReadHandleUpdater = true <;>
        simp [DownloadTask.Execute, DownloadTask.finish, hr, hu]
    | some (k, e) =>
      simp [DownloadTask.Execute, DownloadTask.finish, hr]

/-- C10: when the reader opens successfully but the data-copy phase fails
(with any error, "not found" included), the block is notified with
`DownloadFailed` carrying the copy error generically wrapped with the
data-copy message, and — provided the bucket error itself is not a
clobbered-file error, which bucket errors never are — the notified error
contains no clobbered-file error: that classification applies only to
reader-creation errors. -/
theorem C10_copy_error_generic (dt : DownloadTask) (r : ReaderEnv)
    (k : Nat) (e : GoError)
    (hcopy : r.copyResult = some (k, e))
    (hnc : e.containsFileClobbered = false) :
    (dt.Execute (OpenOutcome.success r)).notifications
      = [⟨BlockState.downloadFailed,
          some (GoError.wrapped "DownloadTask.Execute: while data-copy" e)⟩]
    ∧ (GoError.wrapped "DownloadTask.Execute: while data-copy" e).containsFileClobbered
      = false := by
  constructor
  · simp [DownloadTask.Execute, DownloadTask.finish, hcopy]
  · simp [GoError.containsFileClobbered, hnc]

/-- C10 witness: a copy-phase "not found" error yields a generically wrapped
data-copy error, not a clobbered-file error. -/
theorem C10_witness :
    (DownloadTask.Execute
        ⟨⟨"obj", 1, 100, false, 0⟩, 0, 10, false, [], false⟩
        (OpenOutcome.success ⟨some (3, GoError.notFound "gone"), []⟩)).notifications
      = [⟨BlockState.downloadFailed,
          some (GoError.wrapped "DownloadTask.Execute: while data-copy"
            (GoError.notFound "gone"))⟩]
    ∧ (GoError.wrapped "DownloadTask.Execute: while data-copy"
        (GoError.notFound "gone")).containsFileClobbered = false :=
  C10_copy_error_generic ⟨⟨"obj", 1, 100, false, 0⟩, 0, 10, false, [], false⟩
    ⟨some (3, GoError.notFound "gone"), []⟩ 3 (GoError.notFound "gone") rfl rfl

/-!
Garbage collector (`internal/gcsx/garbage_collect.go`).

`garbageCollectOnce` runs a three-stage pipeline: list objects under the
temporary prefix, filter the stale ones against a single timestamp `now`
captured once before the filter stage starts, and delete the survivors in
order.  The channels preserve per-object order, so for a run whose list
stage succeeds the pipeline's observable behaviour is the sequential
composition embedded below; the bucket's `DeleteObject` is abstracted as a
function from object name to optional error.  Durations are in nanoseconds,
matching Go's `time.Duration`.
-/

/-- `time.Minute` in nanoseconds. -/
def minuteNanos : Int := 60 * 1000000000

/-- `const stalenessThreshold = 30 * time.Minute`. -/
def stalenessThreshold : Int := 30 * minuteNanos

/-- `const period = 10 * time.Minute` in `garbageCollect`. -/
def garbageCollectPeriod : Int := 10 * minuteNanos

/-- The filter stage: skips an object when `now.Sub(o.Updated) <
stalenessThreshold`, forwards it otherwise. -/
def staleFilter (now : Int) (objs : List MinObject) : List MinObject :=
  objs.filter (fun o => ! decide (now - o.updated < stalenessThreshold))

/-- The names forwarded to the delete stage. -/
def staleNames (now : Int) (objs : List MinObject) : List String :=
  (staleFilter now objs).map MinObject.name

/-- Result of one garbage-collection run: `objectsDeleted`, the returned
error, and the `DeleteObjectRequest`s issued (name and generation). -/
structure GCResult where
  objectsDeleted : Nat
  err : Option GoError
  deleteRequests : List (String × Int)
deriving DecidableEq

/-- The delete stage: for each forwarded name issues a delete with
generation 0 (latest generation); on success increments the deleted count
and continues; on the first error stops and returns it wrapped with the
object name. -/
def deleteStage (deleteOutcome : String → Option GoError) :
    List String → GCResult
  | [] => { objectsDeleted := 0, err := none, deleteRequests := [] }
  | name :: rest =>
    match deleteOutcome name with
    | some e =>
      { objectsDeleted := 0
        err := some (GoError.wrapped ("DeleteObject(" ++ name ++ ")") e)
        deleteRequests := [(name, 0)] }
    | none =>
      let r := deleteStage deleteOutcome rest
      { objectsDeleted := r.objectsDeleted + 1
        err := r.err
        deleteRequests := (name, 0) :: r.deleteRequests }

/-- `garbageCollectOnce` for a run whose list stage succeeds and yields
`listed`: filter against the single timestamp `now`, then delete. -/
def garbageCollectOnce (now : Int) (listed : List MinObject)
    (deleteOutcome : String → Option GoError) : GCResult :=
  deleteStage deleteOutcome (staleNames now listed)

/-- When every delete succeeds, the delete stage deletes every forwarded
name, in order, with generation 0, and returns no error. -/
theorem deleteStage_all_ok (deleteOutcome : String → Option GoError)
    (names : List String) (hok : ∀ n ∈ names, deleteOutcome n = none) :
    deleteStage deleteOutcome names
      = { objectsDeleted := names.length, err := none,
          deleteRequests := names.map (fun n => (n, 0)) } := by
  induction names with
  | nil => rfl
  | cons name rest ih =>
    have h1 : deleteOutcome name = none := hok name (List.mem_cons_self name rest)
    have h2 : ∀ n ∈ rest, deleteOutcome n = none :=
      fun n hn => hok n (List.mem_cons_of_mem name hn)
    simp [deleteStage, h1, ih h2]

/-- C2 counterexample: an object whose age is exactly the 30-minute
threshold — not strictly greater — is nevertheless forwarded and deleted,
so "exactly those objects whose age is strictly greater than the threshold
are deleted" fails on the code: with `now = stalenessThreshold` and one
object last updated at 0, the run deletes 1 object although the object's
age is not strictly greater than the threshold. -/
theorem C2_counterexample :
    (garbageCollectOnce stalenessThreshold
        [⟨"tmp", 1, 0, false, 0⟩] (fun _ => none)).objectsDeleted = 1
    ∧ (garbageCollectOnce stalenessThreshold
        [⟨"tmp", 1, 0, false, 0⟩] (fun _ => none)).deleteRequests = [("tmp", 0)]
    ∧ ¬ (stalenessThreshold - (0 : Int) > stalenessThreshold) := by
  refine ⟨by decide, by decide, by decide⟩

/-- C2 (amended): in a single run over the listed objects, exactly those
objects whose age `now − updated` is greater than **or equal to** the
30-minute staleness threshold are forwarded and deleted; when every delete
succeeds the run returns no error, a deleted count equal to the number of
such objects, and issues delete requests exactly for them, in order. -/
theorem C2_stale_filter_run (now : Int) (listed : List MinObject)
    (deleteOutcome : String → Option GoError)
    (hok : ∀ n, deleteOutcome n = none) :
    (garbageCollectOnce now listed deleteOutcome).objectsDeleted
      = (listed.filter
          (fun o => decide (stalenessThreshold ≤ now - o.updated))).length
    ∧ (garbageCollectOnce now listed deleteOutcome).err = none
    ∧ (garbageCollectOnce now listed deleteOutcome).deleteRequests
      = (listed.filter
          (fun o => decide (stalenessThreshold ≤ now - o.updated))).map
          (fun o => (o.name, (0 : Int))) := by
  have hfilter : staleFilter now listed
      = listed.filter (fun o => decide (stalenessThreshold ≤ now - o.updated)) := by
    refine List.filter_congr (fun o _ => ?_)
    by_cases h : now - o.updated < stalenessThreshold
    · have h2 : ¬ stalenessThreshold ≤ now - o.updated := by omega
      simp [h, h2]
    · have h2 : stalenessThreshold ≤ now - o.updated := by omega
      simp [h, h2]
  have hgc : garbageCollectOnce now listed deleteOutcome
      = { objectsDeleted := (staleNames now listed).length, err := none,
          deleteRequests := (staleNames now listed).map (fun n => (n, 0)) } := by
    rw [garbageCollectOnce,
      deleteStage_all_ok deleteOutcome (staleNames now listed) (fun n _ => hok n)]
  rw [hgc]
  refine ⟨?_, rfl, ?_⟩
  · simp [staleNames, hfilter]
  · simp [staleNames, hfilter, List.map_map, Function.comp]

/-- C2 witness: objects last updated 5 minutes, 31 minutes and 2 hours ago —
the run deletes exactly the two older than the threshold, returns a deleted
count of 2, and leaves the 5-minute-old object untouched. -/
theorem C2_witness :
    (garbageCollectOnce (120 * minuteNanos)
        [⟨"o5m", 1, 0, false, 115 * minuteNanos⟩,
         ⟨"o31m", 1, 0, false, 89 * minuteNanos⟩,
         ⟨"o2h", 1, 0, false, 0⟩] (fun _ => none)).objectsDeleted = 2
    ∧ (garbageCollectOnce (120 * minuteNanos)
        [⟨"o5m", 1, 0, false, 115 * minuteNanos⟩,
         ⟨"o31m", 1, 0, false, 89 * minuteNanos⟩,
         ⟨"o2h", 1, 0, false, 0⟩] (fun _ => none)).err = none
    ∧ (garbageCollectOnce (120 * minuteNanos)
        [⟨"o5m", 1, 0, false, 115 * minuteNanos⟩,
         ⟨"o31m", 1, 0, false, 89 * minuteNanos⟩,
         ⟨"o2h", 1, 0, false, 0⟩] (fun _ => none)).deleteRequests
      = [("o31m", 0), ("o2h", 0)] := by
  have h := C2_stale_filter_run (120 * minuteNanos)
    [⟨"o5m", 1, 0, false, 115 * minuteNanos⟩,
     ⟨"o31m", 1, 0, false, 89 * minuteNanos⟩,
     ⟨"o2h", 1, 0, false, 0⟩] (fun _ => none) (fun _ => rfl)
  exact ⟨h.1.trans (by decide), h.2.1, h.2.2.trans (by decide)⟩

/-- The delete stage on a forwarded list that succeeds for every name in
`pre` and then fails on `bad`: counts exactly `pre.length`, returns the
first error wrapped with the failing object's name, and has issued requests
(generation 0) for `pre` and `bad` only. -/
theorem deleteStage_first_error (deleteOutcome : String → Option GoError)
    (pre : List String) (bad : String) (rest : List String) (e : GoError)
    (hpre : ∀ n ∈ pre, deleteOutcome n = none)
    (hbad : deleteOutcome bad = some e) :
    deleteStage deleteOutcome (pre ++ bad :: rest)
      = { objectsDeleted := pre.length
          err := some (GoError.wrapped ("DeleteObject(" ++ bad ++ ")") e)
          deleteRequests := (pre ++ [bad]).map (fun n => (n, 0)) } := by
  induction pre with
  | nil => simp [deleteStage, hbad]
  | cons name ns ih =>
    have h1 : deleteOutcome name = none := hpre name (List.mem_cons_self name ns)
    have h2 : ∀ n ∈ ns, deleteOutcome n = none :=
      fun n hn => hpre n (List.mem_cons_of_mem name hn)
    simp [deleteStage, h1, ih h2]

/-- C5: the delete stage issues unconditional generation-0 deletes for the
forwarded names in order; the deleted count is incremented only on successful
deletes; and when the first failure occurs at `bad` after the names in `pre`
all succeeded, the run returns exactly `pre.length` (the objects actually
deleted before the failure) together with that first error, while the
requests already issued (the prior deletions) stand. -/
theorem C5_delete_stage_error (now : Int) (listed : List MinObject)
    (deleteOutcome : String → Option GoError)
    (pre : List String) (bad : String) (rest : List String) (e : GoError)
    (hsplit : staleNames now listed = pre ++ bad :: rest)
    (hpre : ∀ n ∈ pre, deleteOutcome n = none)
    (hbad : deleteOutcome bad = some e) :
    (garbageCollectOnce now listed deleteOutcome).objectsDeleted = pre.length
    ∧ (garbageCollectOnce now listed deleteOutcome).err
      = some (GoError.wrapped ("DeleteObject(" ++ bad ++ ")") e)
    ∧ (garbageCollectOnce now listed deleteOutcome).deleteRequests
      = (pre ++ [bad]).map (fun n => (n, (0 : Int))) := by
  have h : garbageCollectOnce now listed deleteOutcome
      = deleteStage deleteOutcome (pre ++ bad :: rest) := by
    rw [garbageCollectOnce, hsplit]
  rw [h, deleteStage_first_error deleteOutcome pre bad rest e hpre hbad]
  exact ⟨rfl, rfl, rfl⟩

/-- C5 witness: three stale objects `a`, `b`, `c`; the delete of `b` fails.
The run reports 1 object deleted (`a`), returns the wrapped first error for
`b`, and issued generation-0 requests for `a` and `b` only. -/
theorem C5_witness :
    (garbageCollectOnce (31 * minuteNanos)
        [⟨"a", 1, 0, false, 0⟩, ⟨"b", 1, 0, false, 0⟩, ⟨"c", 1, 0, false, 0⟩]
        (fun n => if n = "b" then some (GoError.other "boom") else none)).objectsDeleted
      = 1
    ∧ (garbageCollectOnce (31 * minuteNanos)
        [⟨"a", 1, 0, false, 0⟩, ⟨"b", 1, 0, false, 0⟩, ⟨"c", 1, 0, false, 0⟩]
        (fun n => if n = "b" then some (GoError.other "boom") else none)).err
      = some (GoError.wrapped "DeleteObject(b)" (GoError.other "boom"))
    ∧ (garbageCollectOnce (31 * minuteNanos)
        [⟨"a", 1, 0, false, 0⟩, ⟨"b", 1, 0, false, 0⟩, ⟨"c", 1, 0, false, 0⟩]
        (fun n => if n = "b" then some (GoError.other "boom") else none)).deleteRequests
      = [("a", 0), ("b", 0)] := by
  have h := C5_delete_stage_error (31 * minuteNanos)
    [⟨"a", 1, 0, false, 0⟩, ⟨"b", 1, 0, false, 0⟩, ⟨"c", 1, 0, false, 0⟩]
    (fun n => if n = "b" then some (GoError.other "boom") else none)
    ["a"] "b" ["c"] (GoError.other "boom") (by decide) (by decide) (by decide)
  exact ⟨h.1, h.2.1, h.2.2⟩

/-- C9: within one run all objects are judged against the single timestamp
`now` captured before filtering begins, so two listed objects with equal
last-updated timestamps are always both forwarded or both skipped; and the
set of forwarded names is unchanged (up to permutation) when the listing
order changes. -/
theorem C9_single_reference_timestamp (now : Int) (objs : List MinObject)
    (o1 o2 : MinObject)
    (h1 : o1 ∈ objs) (h2 : o2 ∈ objs) (heq : o1.updated = o2.updated) :
    (o1 ∈ staleFilter now objs ↔ o2 ∈ staleFilter now objs)
    ∧ ∀ objs2, objs.Perm objs2 →
        (staleNames now objs).Perm (staleNames now objs2) := by
  constructor
  · simp only [staleFilter, List.mem_filter, h1, h2, heq, true_and]
  · intro objs2 hp
    simp only [staleNames, staleFilter]
    exact (hp.filter _).map _

/-- C9 witness: two objects with the same last-updated timestamp are judged
alike, and reversing the listing order permutes the forwarded names. -/
theorem C9_witness :
    ((⟨"x", 1, 0, false, -2 * stalenessThreshold⟩ : MinObject)
        ∈ staleFilter 0
          [⟨"x", 1, 0, false, -2 * stalenessThreshold⟩,
           ⟨"y", 2, 0, false, -2 * stalenessThreshold⟩]
      ↔ (⟨"y", 2, 0, false, -2 * stalenessThreshold⟩ : MinObject)
        ∈ staleFilter 0
          [⟨"x", 1, 0, false, -2 * stalenessThreshold⟩,
           ⟨"y", 2, 0, false, -2 * stalenessThreshold⟩])
    ∧ (staleNames 0
        [⟨"x", 1, 0, false, -2 * stalenessThreshold⟩,
         ⟨"y", 2, 0, false, -2 * stalenessThreshold⟩]).Perm
      (staleNames 0
        [⟨"y", 2, 0, false, -2 * stalenessThreshold⟩,
         ⟨"x", 1, 0, false, -2 * stalenessThreshold⟩]) := by
  have h := C9_single_reference_timestamp 0
    [⟨"x", 1, 0, false, -2 * stalenessThreshold⟩,
     ⟨"y", 2, 0, false, -2 * stalenessThreshold⟩]
    ⟨"x", 1, 0, false, -2 * stalenessThreshold⟩
    ⟨"y", 2, 0, false, -2 * stalenessThreshold⟩
    (by decide) (by decide) rfl
  exact ⟨h.1, h.2
    [⟨"y", 2, 0, false, -2 * stalenessThreshold⟩,
     ⟨"x", 1, 0, false, -2 * stalenessThreshold⟩]
    (List.Perm.swap _ _ _)⟩

/-- One select-loop iteration outcome in `garbageCollect`: either the ticker
fired and a collection run was started (`tick`, carrying the run's error,
which is only logged), or the owning context was observed cancelled
(`ctxDone`). -/
inductive LoopEvent
  | tick (runError : Option GoError)
  | ctxDone
deriving DecidableEq

/-- Observable outcome of the periodic loop over a finite sequence of select
outcomes: how many collection runs were started, and whether the loop
returned because the context was cancelled (`false` means the loop is still
running when the event sequence ends). -/
structure LoopOutcome where
  runsStarted : Nat
  stoppedByCancel : Bool
deriving DecidableEq

/-- The `garbageCollect` select loop: on `ctx.Done()` it returns; on a
ticker tick it runs `garbageCollectOnce`, logs the outcome (error or
success), and loops again unconditionally. -/
def garbageCollect : List LoopEvent → LoopOutcome
  | [] => ⟨0, false⟩
  | LoopEvent.ctxDone :: _ => ⟨0, true⟩
  | LoopEvent.tick _ :: rest =>
    let r := garbageCollect rest
    ⟨r.runsStarted + 1, r.stoppedByCancel⟩

/-- C6: the periodic loop stops by cancellation exactly when a context-done
event occurs; a run that ends in an error leaves the loop's behaviour
identical to an error-free run (the next tick still starts a run); and the
period between ticks is the fixed 10 minutes. -/
theorem C6_loop_runs_until_cancelled (evs : List LoopEvent) :
    ((garbageCollect evs).stoppedByCancel = true ↔ LoopEvent.ctxDone ∈ evs)
    ∧ (∀ e rest, garbageCollect (LoopEvent.tick (some e) :: rest)
        = garbageCollect (LoopEvent.tick none :: rest))
    ∧ (∀ e rest, (garbageCollect (LoopEvent.tick (some e) :: rest)).runsStarted
        = (garbageCollect rest).runsStarted + 1)
    ∧ garbageCollectPeriod = 10 * minuteNanos := by
  refine ⟨?_, fun e rest => rfl, fun e rest => rfl, rfl⟩
  induction evs with
  | nil => simp [garbageCollect]
  | cons ev rest ih =>
    cases ev with
    | ctxDone => simp [garbageCollect]
    | tick e => simp [garbageCollect, ih]
